import Mathlib

/-!
Verification of the study-leave-document-generator core logic.

Two layers are embedded from the source:

* the web form's zod validation schema (`createFormSchema` in the
  `DocumentBuild` component) together with the submit flow
  (`onSubmit` / `handleSubmit`) and its session flags
  (`hasSubmittedOnce`, `isGenerating`);
* the Typst template `document.typ`: its input assertions, the
  checklist branch selection, the `value-or-blank` helper, and the
  `date-with-city` header helper.

All definitions follow the source files; machine behaviour (zod issue
lists, string emptiness via `min(1)`, the JS falsy check on optional
fields) is reproduced rather than idealised.
-/

/-- zod issue codes used by the schema: `min(1)` failures surface as
`too_small`, `superRefine` issues are added with `ZodIssueCode.custom`. -/
inductive ZodCode
  | too_small
  | custom
deriving DecidableEq, Repr

/-- Field paths of the form schema, in declaration order. -/
inductive FieldName
  | activity_type
  | language
  | name
  | id
  | degree
  | course
  | professor
  | date
  | city
  | image_path
deriving DecidableEq, Repr

/-- One zod issue: the field path it is attached to, its code and its
human-readable message. -/
structure Issue where
  path : FieldName
  code : ZodCode
  message : String
deriving DecidableEq, Repr

/-- The form's field record.  The required fields are controlled inputs
and always carry a string; `course`, `professor` and `image_path` are
declared `z.string().optional()` so they may be absent. -/
structure FormData where
  activity_type : String
  language : String
  name : String
  id : String
  degree : String
  course : Option String
  professor : Option String
  date : String
  city : String
  image_path : Option String
deriving DecidableEq, Repr

/-- `z.string().min(1, \x7b message \x7d)`: emit a `too_small` issue when the
string's length is below 1. -/
def minIssue (val : String) (f : FieldName) (msg : String) : List Issue :=
  if val.length < 1 then [⟨f, .too_small, msg⟩] else []

/-- The issues produced by the base object schema (the seven required
string fields, each checked with `min(1)`; `course`, `professor` and
`image_path` are optional and unchecked). -/
def baseIssues (d : FormData) : List Issue :=
  minIssue d.activity_type .activity_type "Please select an activity type."
    ++ minIssue d.language .language "Please select a language."
    ++ minIssue d.name .name "Student name is required."
    ++ minIssue d.id .id "Student ID is required."
    ++ minIssue d.degree .degree "Degree program is required."
    ++ minIssue d.date .date "Date is required."
    ++ minIssue d.city .city "City name is required."

/-- JavaScript `String.prototype.trim()`: strip whitespace from both
ends of the string.  (Implemented over the character list so that it
evaluates by kernel reduction.) -/
def jsTrim (s : String) : String :=
  String.mk (((s.toList.dropWhile Char.isWhitespace).reverse.dropWhile
    Char.isWhitespace).reverse)

/-- The JS guard `!v || v.trim() === ""` on an optional string field:
true when the field is absent, the empty string (falsy), or blank after
trimming. -/
def missingAfterTrim : Option String → Bool
  | none => true
  | some s => s == "" || jsTrim s == ""

/-- The `superRefine` block of `createFormSchema`: activity-conditional
requirements, evaluated in source order (lectures, exams, office
hours). -/
def condIssues (d : FormData) : List Issue :=
  (if d.activity_type == "lectures" && missingAfterTrim d.course then
      [⟨.course, .custom, "Course is required for lectures."⟩]
    else [])
    ++ (if (d.activity_type == "oral-exam" || d.activity_type == "written-exam")
          && missingAfterTrim d.course then
      [⟨.course, .custom, "Course is required for exams."⟩]
    else [])
    ++ (if d.activity_type == "office-hours" && missingAfterTrim d.professor then
      [⟨.professor, .custom, "Professor is required for office hours."⟩]
    else [])

/-- Running the schema built by `createFormSchema hasSubmitted` on a
record: the base checks always run; a failing `min(1)` marks the parse
dirty but does not abort it, so the `superRefine` refinement still runs
and its issues are appended whenever the strict schema is in force. -/
def validateForm (hasSubmitted : Bool) (d : FormData) : List Issue :=
  baseIssues d ++ (if hasSubmitted then condIssues d else [])

/-- Is there an issue on field `f` with code `c`? -/
def hasIssueOn (issues : List Issue) (f : FieldName) (c : ZodCode) : Bool :=
  issues.any fun i => i.path == f && i.code == c

/-! ## Typst template `document.typ` -/

/-- The inputs dictionary read by `document.typ` from the JSON payload
posted by the web client (`documentInputs` in `onSubmit`).  The client
always sends strings for `course` and `professor` (`data.course || ""`),
but the template's `value-or-blank` helper also guards against `none`,
so the two optional fields are kept optional here. -/
structure TypInputs where
  language : String
  name : String
  id : String
  degree : String
  course : Option String
  professor : Option String
  date : String
  city : String
  image_path : String
  activity_type : String
deriving DecidableEq, Repr

/-- The regex `^\d\x7b4\x7d-\d\x7b2\x7d-\d\x7b2\x7d$` from the template's date
assertion: exactly four digits, a dash, two digits, a dash, two
digits. -/
def matchesDateShape (s : String) : Bool :=
  match s.toList with
  | [y1, y2, y3, y4, h1, m1, m2, h2, d1, d2] =>
      y1.isDigit && y2.isDigit && y3.isDigit && y4.isDigit
        && h1 == '-' && m1.isDigit && m2.isDigit && h2 == '-'
        && d1.isDigit && d2.isDigit
  | _ => false

/-- The four activity tags accepted by the template
(`#let activities = (...)`). -/
def activities : List String :=
  ["lectures", "oral-exam", "written-exam", "office-hours"]

/-- The template's indicator sum used by its mutual-exclusivity assert:
`if activity == "lectures" \x7b 1 \x7d else \x7b 0 \x7d + ...`. -/
def activityIndicatorSum (a : String) : Nat :=
  (if a == "lectures" then 1 else 0)
    + (if a == "oral-exam" then 1 else 0)
    + (if a == "written-exam" then 1 else 0)
    + (if a == "office-hours" then 1 else 0)

/-- Conjunction of every `#assert` in `document.typ` (lines 33-84): the
non-emptiness checks, the date-shape regex, membership of the activity
tag in the catalog, and the mutual-exclusivity bound. -/
def typAssertsPass (i : TypInputs) : Bool :=
  decide (i.name.length > 0)
    && decide (i.id.length > 0)
    && decide (i.degree.length > 0)
    && matchesDateShape i.date
    && decide (i.city.length > 0)
    && decide (i.image_path.length > 0)
    && decide (i.language.length > 0)
    && activities.contains i.activity_type
    && decide (activityIndicatorSum i.activity_type ≤ 1)

/-- A TOML local date as produced by
`toml(bytes("date = " + date_str)).date`. -/
structure TomlDate where
  year : Nat
  month : Nat
  day : Nat
deriving DecidableEq, Repr

/-- The numeric value of a digit character. -/
def digitVal (c : Char) : Nat := c.toNat - '0'.toNat

/-- Is `y` a leap year (Gregorian rule, as in TOML date validation)? -/
def isLeapYear (y : Nat) : Bool :=
  y % 4 == 0 && (y % 100 != 0 || y % 400 == 0)

/-- Number of days of month `m` in year `y`. -/
def daysInMonth (y m : Nat) : Nat :=
  if m == 2 then (if isLeapYear y then 29 else 28)
  else if m == 4 || m == 6 || m == 9 || m == 11 then 30
  else 31

/-- Parsing of the date string through the TOML workaround of the
template: a TOML local date is `YYYY-MM-DD` with digits only and a
calendar-valid month and day; anything else makes `toml(...)` fail. -/
def parseTomlDate (s : String) : Option TomlDate :=
  match s.toList with
  | [y1, y2, y3, y4, h1, m1, m2, h2, d1, d2] =>
      if y1.isDigit && y2.isDigit && y3.isDigit && y4.isDigit
          && h1 == '-' && m1.isDigit && m2.isDigit && h2 == '-'
          && d1.isDigit && d2.isDigit then
        let y := ((digitVal y1 * 10 + digitVal y2) * 10 + digitVal y3) * 10
          + digitVal y4
        let m := digitVal m1 * 10 + digitVal m2
        let d := digitVal d1 * 10 + digitVal d2
        if 1 ≤ m && m ≤ 12 && 1 ≤ d && d ≤ daysInMonth y m then
          some ⟨y, m, d⟩
        else none
      else none
  | _ => none

/-- Zero-padding of a number to width `w`, as Typst's `datetime.display`
does for `[day]`, `[month]` (width 2) and `[year]` (width 4). -/
def padNum (w n : Nat) : String :=
  let s := toString n
  String.mk (List.replicate (w - s.length) '0') ++ s

/-- Typst `when.display("[day]/[month]/[year]")`. -/
def displayDayMonthYear (dt : TomlDate) : String :=
  padNum 2 dt.day ++ "/" ++ padNum 2 dt.month ++ "/" ++ padNum 4 dt.year

/-- The `date-with-city` helper (line 94 of the template):
`city + ", " + when.display("[day]/[month]/[year]")`. -/
def dateWithCity (city : String) (dt : TomlDate) : String :=
  city ++ ", " ++ displayDayMonthYear dt

/-- The header line of the document: `date-with-city` applied to the
city input and the parsed date. -/
def assembleHeader (city dateStr : String) : Option String :=
  (parseTomlDate dateStr).map (dateWithCity city)

/-- The fixed blank-line placeholder `"_" * 20` returned by
`value-or-blank` for missing values. -/
def blankLine : String := String.mk (List.replicate 20 '_')

/-- The template's `value-or-blank` helper: a 20-underscore blank for
`none` or the empty string, the value itself otherwise. -/
def valueOrBlank : Option String → String
  | none => blankLine
  | some v => if v.length == 0 then blankLine else v

/-- The lectures checklist item: same label in both branches of the
template's `if activity == "lectures"`, only the mark differs. -/
def lecturesItem (a : String) : String × Bool :=
  if a == "lectures" then ("lectures", true) else ("lectures", false)

/-- The exams section: parent item plus the two-item sub-checklist, as
laid out by the `if activity == "written-exam" ... else if ... else`
chain of the template. -/
def examsSection (a : String) : List (String × Bool) :=
  if a == "written-exam" then
    [("exams", true), ("written-exam", true), ("oral-exam", false)]
  else if a == "oral-exam" then
    [("exams", true), ("written-exam", false), ("oral-exam", true)]
  else
    [("exams", false), ("written-exam", false), ("oral-exam", false)]

/-- The office-hours checklist item. -/
def officeHoursItem (a : String) : String × Bool :=
  if a == "office-hours" then ("office-hours", true)
  else ("office-hours", false)

/-- All checklist items of the rendered document, in layout order:
lectures, the exams section, office hours.  Every item is rendered in
every document; only its mark depends on the activity. -/
def checklistItems (a : String) : List (String × Bool) :=
  lecturesItem a :: examsSection a ++ [officeHoursItem a]

/-- The marks of the four activity branches (lectures, written-exam,
oral-exam, office-hours): all items except the parent `exams` entry. -/
def branchMarks (a : String) : List Bool :=
  ((checklistItems a).filter fun p => p.1 != "exams").map fun p => p.2

/-- The assembled document model: the header line, the checklist, and
the three text slots that interpolate the optional fields.
`lectureCourseArg` and `officeProfessorArg` go through `value-or-blank`;
`forTheCourseArg` is the raw `course` value passed to
`transl("for-the-course", args: (course: course))`. -/
structure DocModel where
  header : Option String
  items : List (String × Bool)
  lectureCourseArg : String
  forTheCourseArg : Option String
  officeProfessorArg : String
deriving DecidableEq, Repr

/-- Assembly of the document model from the template inputs. -/
def assemble (i : TypInputs) : DocModel :=
  { header := assembleHeader i.city i.date
    items := checklistItems i.activity_type
    lectureCourseArg := valueOrBlank i.course
    forTheCourseArg := i.course
    officeProfessorArg := valueOrBlank i.professor }

/-! ## Form session state and submit flow -/

/-- The session flags of the `DocumentBuild` component, plus a ghost
counter of outstanding build requests used to state the
at-most-one-in-flight invariant. -/
structure Session where
  hasSubmittedOnce : Bool
  isGenerating : Bool
  outstanding : Nat
deriving DecidableEq, Repr

/-- Possible outcomes of one submission attempt. -/
inductive SubmitOutcome
  | rejectedByResolver
  | ignoredInFlight
  | rejectedOnFirstStrictCheck
  | buildIssued
deriving DecidableEq, Repr

/-- One submission attempt: `form.handleSubmit` first validates with
the resolver in force (built from the current `hasSubmittedOnce`) and
only calls `onSubmit` when that passes; `onSubmit` returns early while
`isGenerating`, flips `hasSubmittedOnce` on the first submission and
re-validates with the strict schema (`form.trigger`), stopping if that
fails; otherwise it sets `isGenerating` and issues the build request. -/
def submitFlow (s : Session) (d : FormData) : Session × SubmitOutcome :=
  if validateForm s.hasSubmittedOnce d ≠ [] then (s, .rejectedByResolver)
  else if s.isGenerating then (s, .ignoredInFlight)
  else if s.hasSubmittedOnce then
    ({ s with isGenerating := true, outstanding := s.outstanding + 1 },
      .buildIssued)
  else
    let s1 : Session := { s with hasSubmittedOnce := true }
    if validateForm true d ≠ [] then (s1, .rejectedOnFirstStrictCheck)
    else ({ s1 with isGenerating := true, outstanding := s1.outstanding + 1 },
      .buildIssued)

/-- Events a form session reacts to: a submission attempt, or the
completion (success or failure) of an outstanding build request, whose
`finally` clause clears `isGenerating`. -/
inductive FormEvent
  | submitEvent (d : FormData)
  | buildDone (success : Bool)

/-- One step of the session state machine. -/
def sessionStep (s : Session) : FormEvent → Session
  | .submitEvent d => (submitFlow s d).1
  | .buildDone _ => { s with isGenerating := false,
                             outstanding := s.outstanding - 1 }

/-- Running the session over a list of events. -/
def runSession (s : Session) : List FormEvent → Session
  | [] => s
  | e :: es => runSession (sessionStep s e) es

/-- The session state at form mount: no submission yet, no build in
flight. -/
def initSession : Session := ⟨false, false, 0⟩

/-- The session invariant: a build request is outstanding exactly while
`isGenerating` is set, so at most one request is ever in flight. -/
def goodSession (s : Session) : Prop :=
  s.outstanding = if s.isGenerating then 1 else 0

/-! ## Shared lemmas -/

lemma hasIssueOn_append (l1 l2 : List Issue) (f : FieldName) (c : ZodCode) :
    hasIssueOn (l1 ++ l2) f c = (hasIssueOn l1 f c || hasIssueOn l2 f c) := by
  simp [hasIssueOn]

lemma hasIssueOn_minIssue (v : String) (f g : FieldName) (msg : String)
    (c : ZodCode) :
    hasIssueOn (minIssue v f msg) g c
      = (decide (v.length < 1) && (f == g) && (ZodCode.too_small == c)) := by
  simp only [minIssue, hasIssueOn]
  split <;> simp_all

lemma hasIssueOn_iteSingleton (b : Bool) (i : Issue) (f : FieldName)
    (c : ZodCode) :
    hasIssueOn (if b = true then [i] else []) f c
      = (b && (i.path == f && i.code == c)) := by
  cases b <;> simp [hasIssueOn]

lemma jsTrim_empty : jsTrim "" = "" := rfl

lemma missingAfterTrim_iff (v : Option String) :
    missingAfterTrim v = true ↔ jsTrim (v.getD "") = "" := by
  cases v with
  | none => simp [missingAfterTrim, jsTrim_empty]
  | some s =>
    simp only [missingAfterTrim, Option.getD_some, Bool.or_eq_true, beq_iff_eq]
    constructor
    · rintro (rfl | h)
      · exact jsTrim_empty
      · exact h
    · intro h; exact Or.inr h

lemma length_lt_one_iff (s : String) : s.length < 1 ↔ s = "" := by
  rw [Nat.lt_one_iff]
  constructor
  · intro h
    cases s with
    | mk data =>
      simp [String.length] at h
      simp [h]
  · intro h; subst h; rfl

lemma length_eq_zero_iff (s : String) : s.length = 0 ↔ s = "" := by
  rw [← Nat.lt_one_iff]
  exact length_lt_one_iff s

lemma hasIssueOn_condIssues_course (d : FormData) :
    hasIssueOn (condIssues d) .course .custom
      = ((d.activity_type == "lectures"
          || (d.activity_type == "oral-exam"
            || d.activity_type == "written-exam"))
        && missingAfterTrim d.course) := by
  simp only [condIssues, hasIssueOn_append, hasIssueOn_iteSingleton]
  cases d.activity_type == "lectures" <;>
    cases d.activity_type == "oral-exam" <;>
    cases d.activity_type == "written-exam" <;>
    cases d.activity_type == "office-hours" <;>
    cases missingAfterTrim d.course <;> simp

lemma hasIssueOn_condIssues_professor (d : FormData) :
    hasIssueOn (condIssues d) .professor .custom
      = (d.activity_type == "office-hours" && missingAfterTrim d.professor) := by
  simp only [condIssues, hasIssueOn_append, hasIssueOn_iteSingleton]
  cases d.activity_type == "lectures" <;>
    cases d.activity_type == "oral-exam" <;>
    cases d.activity_type == "written-exam" <;>
    cases d.activity_type == "office-hours" <;>
    cases missingAfterTrim d.professor <;> simp

lemma hasIssueOn_baseIssues_optional (d : FormData) (c : ZodCode) :
    hasIssueOn (baseIssues d) .course c = false
      ∧ hasIssueOn (baseIssues d) .professor c = false := by
  constructor <;> simp [baseIssues, hasIssueOn_append, hasIssueOn_minIssue]

lemma hasIssueOn_condIssues_too_small (d : FormData) (f : FieldName) :
    hasIssueOn (condIssues d) f .too_small = false := by
  simp only [condIssues, hasIssueOn_append, hasIssueOn_iteSingleton]
  simp

lemma hasIssueOn_validate_too_small (b : Bool) (d : FormData) (f : FieldName) :
    hasIssueOn (validateForm b d) f .too_small
      = hasIssueOn (baseIssues d) f .too_small := by
  cases b <;>
    simp [validateForm, hasIssueOn_append, hasIssueOn_condIssues_too_small]

/-! ## Concrete records used by witnesses and counterexamples -/

/-- A fully filled, well-formed record (the scenario of the spec's
testable-properties section). -/
def filledData : FormData :=
  { activity_type := "lectures", language := "en", name := "Elena Rossi",
    id := "12345678", degree := "Computer Science",
    course := some "Advanced Programming", professor := some "",
    date := "2024-01-01", city := "Trento",
    image_path := some "imgs/unitn.jpg" }

/-! ## Claim theorems -/

/-- C1: with `hasSubmittedOnce = true`, `validate` reports a custom
(ActivityFieldRequired) issue on `course` iff `course` is blank after
trimming and the activity is lectures / oral-exam / written-exam, and on
`professor` iff `professor` is blank after trimming and the activity is
office-hours; with `hasSubmittedOnce = false` no issue of any code is
ever reported on `course` or `professor`. -/
theorem conditional_rules_strict_iff (d : FormData) :
    (hasIssueOn (validateForm true d) .course .custom = true ↔
      (jsTrim (d.course.getD "") = "" ∧
        (d.activity_type = "lectures" ∨ d.activity_type = "oral-exam" ∨
          d.activity_type = "written-exam")))
    ∧ (hasIssueOn (validateForm true d) .professor .custom = true ↔
      (jsTrim (d.professor.getD "") = "" ∧ d.activity_type = "office-hours"))
    ∧ (∀ c : ZodCode, hasIssueOn (validateForm false d) .course c = false
        ∧ hasIssueOn (validateForm false d) .professor c = false) := by
  refine ⟨?_, ?_, ?_⟩
  · simp only [validateForm, if_true, hasIssueOn_append,
      (hasIssueOn_baseIssues_optional d .custom).1, Bool.false_or,
      hasIssueOn_condIssues_course, Bool.and_eq_true, Bool.or_eq_true,
      beq_iff_eq, missingAfterTrim_iff]
    tauto
  · simp only [validateForm, if_true, hasIssueOn_append,
      (hasIssueOn_baseIssues_optional d .custom).2, Bool.false_or,
      hasIssueOn_condIssues_professor, Bool.and_eq_true,
      beq_iff_eq, missingAfterTrim_iff]
    tauto
  · intro c
    simpa [validateForm, hasIssueOn_append] using
      hasIssueOn_baseIssues_optional d c

/-- C2 (amended): for both values of `hasSubmittedOnce`, `validate`
reports a `too_small` (FieldRequired) issue on each of the seven
unconditional fields exactly when that field is the empty string; zod's
`min(1)` does not trim, so whitespace-only input passes. -/
theorem unconditional_rules_empty_iff (b : Bool) (d : FormData) :
    (hasIssueOn (validateForm b d) .activity_type .too_small = true ↔
      d.activity_type = "")
    ∧ (hasIssueOn (validateForm b d) .language .too_small = true ↔
      d.language = "")
    ∧ (hasIssueOn (validateForm b d) .name .too_small = true ↔ d.name = "")
    ∧ (hasIssueOn (validateForm b d) .id .too_small = true ↔ d.id = "")
    ∧ (hasIssueOn (validateForm b d) .degree .too_small = true ↔
      d.degree = "")
    ∧ (hasIssueOn (validateForm b d) .date .too_small = true ↔ d.date = "")
    ∧ (hasIssueOn (validateForm b d) .city .too_small = true ↔
      d.city = "") := by
  refine ⟨?_, ?_, ?_, ?_, ?_, ?_, ?_⟩ <;>
    rw [hasIssueOn_validate_too_small] <;>
    simp [baseIssues, hasIssueOn_append, hasIssueOn_minIssue,
      length_lt_one_iff, length_eq_zero_iff]

/-- C2 counterexample: a record whose `name` is a single space (empty
after trimming) passes validation with no issue at all, in both
submission states, contradicting the claim that whitespace-only input is
rejected for the unconditional fields. -/
theorem whitespace_only_name_accepted :
    jsTrim " " = ""
      ∧ hasIssueOn (validateForm true { filledData with name := " " })
          .name .too_small = false
      ∧ hasIssueOn (validateForm false { filledData with name := " " })
          .name .too_small = false
      ∧ validateForm true { filledData with name := " " } = [] := by decide

/-- C3 (amended): the form validator's only check on `date` is
non-emptiness (it fires iff `date = ""`, never a custom issue), in both
submission states; the structural `YYYY-MM-DD` check is performed by the
template, whose assertions cannot pass on a date that fails the
shape regex. -/
theorem date_shape_checked_in_template (d : FormData) (b : Bool)
    (i : TypInputs) :
    (hasIssueOn (validateForm b d) .date .too_small = true ↔ d.date = "")
      ∧ hasIssueOn (validateForm b d) .date .custom = false
      ∧ (typAssertsPass i = true → matchesDateShape i.date = true) := by
  refine ⟨?_, ?_, ?_⟩
  · rw [hasIssueOn_validate_too_small]
    simp [baseIssues, hasIssueOn_append, hasIssueOn_minIssue,
      length_lt_one_iff, length_eq_zero_iff]
  · have hbase : hasIssueOn (baseIssues d) .date .custom = false := by
      simp [baseIssues, hasIssueOn_append, hasIssueOn_minIssue]
    have hcond : hasIssueOn (condIssues d) .date .custom = false := by
      simp only [condIssues, hasIssueOn_append, hasIssueOn_iteSingleton]
      simp
    cases b <;> simp [validateForm, hasIssueOn_append, hbase, hcond]
  · intro h
    simp only [typAssertsPass, Bool.and_eq_true] at h
    exact h.1.1.1.1.1.2

/-- Witness for the template conjunct of `date_shape_checked_in_template`
at a concrete passing input. -/
theorem date_shape_checked_in_template_witness :
    matchesDateShape "2024-01-01" = true :=
  (date_shape_checked_in_template filledData true
    { language := "en", name := "Elena Rossi", id := "12345678",
      degree := "Computer Science", course := some "Advanced Programming",
      professor := some "", date := "2024-01-01", city := "Trento",
      image_path := "imgs/unitn.jpg", activity_type := "lectures" }).2.2
    (by decide)

/-- C3 counterexample: a non-date string in `date` sails through form
validation in both submission states (no issue on any field at all),
though it fails the `YYYY-MM-DD` shape; only the template rejects it. -/
theorem malformed_date_passes_form_validation :
    matchesDateShape "not-a-date" = false
      ∧ ((validateForm true { filledData with date := "not-a-date" }).any
          fun i => i.path == FieldName.date) = false
      ∧ ((validateForm false { filledData with date := "not-a-date" }).any
          fun i => i.path == FieldName.date) = false
      ∧ validateForm true { filledData with date := "not-a-date" } = [] := by
  decide

/-! ## Counting lemmas for per-field issue multiplicity -/

lemma filter_path_minIssue (v : String) (g : FieldName) (msg : String)
    (f : FieldName) :
    ((minIssue v g msg).filter fun i => i.path == f).length
      = if v.length < 1 && g == f then 1 else 0 := by
  simp only [minIssue]
  split <;> cases hg : g == f <;> simp_all

lemma filter_path_iteSingleton (b : Bool) (i : Issue) (f : FieldName) :
    (((if b = true then [i] else []) : List Issue).filter
        fun j => j.path == f).length
      = if b && i.path == f then 1 else 0 := by
  cases b <;> cases hp : i.path == f <;> simp_all

lemma filter_path_baseIssues_le (d : FormData) (f : FieldName) :
    ((baseIssues d).filter fun i => i.path == f).length ≤ 1 := by
  simp only [baseIssues, List.filter_append, List.length_append,
    filter_path_minIssue]
  cases f <;> simp <;> split <;> simp

lemma filter_path_baseIssues_optional (d : FormData) :
    ((baseIssues d).filter fun i => i.path == FieldName.course).length = 0
      ∧ ((baseIssues d).filter
          fun i => i.path == FieldName.professor).length = 0 := by
  constructor <;>
    simp [baseIssues, List.filter_append, filter_path_minIssue]

lemma lectures_not_exam (a : String) :
    (a == "lectures") = true →
      ((a == "oral-exam") || (a == "written-exam")) = false := by
  intro h
  rw [beq_iff_eq] at h
  subst h
  decide

lemma filter_path_condIssues (d : FormData) (f : FieldName) :
    ((condIssues d).filter fun i => i.path == f).length
      = (if (d.activity_type == "lectures" && missingAfterTrim d.course)
            && (FieldName.course == f) then 1 else 0)
        + ((if ((d.activity_type == "oral-exam"
              || d.activity_type == "written-exam")
              && missingAfterTrim d.course)
            && (FieldName.course == f) then 1 else 0)
          + (if (d.activity_type == "office-hours"
              && missingAfterTrim d.professor)
            && (FieldName.professor == f) then 1 else 0)) := by
  simp only [condIssues, List.filter_append, List.length_append,
    filter_path_iteSingleton]
  omega

lemma filter_path_condIssues_le (d : FormData) (f : FieldName) :
    ((condIssues d).filter fun i => i.path == f).length ≤ 1 := by
  rw [filter_path_condIssues]
  cases f <;> simp
  case course =>
    by_cases h : d.activity_type = "lectures"
    · have h2 : ¬((d.activity_type = "oral-exam"
            ∨ d.activity_type = "written-exam")
          ∧ missingAfterTrim d.course = true) := by
        rw [h]
        rintro ⟨h2 | h2, _⟩ <;> exact absurd h2 (by decide)
      simp [h2]
      split <;> simp
    · have h1 : ¬(d.activity_type = "lectures"
          ∧ missingAfterTrim d.course = true) := fun hc => h hc.1
      simp [h1]
      split <;> simp
  case professor => split <;> simp

/-- C4: on a first submission (`hasSubmittedOnce = false`, no build in
flight) whose record passes the lenient base checks but violates a
conditional rule, `onSubmit` flips `hasSubmittedOnce` to `true` and the
re-validation under the strict schema rejects the very same submission:
no build is issued and the resulting state is strict. -/
theorem first_submission_validated_strictly (s : Session) (d : FormData)
    (h0 : s.hasSubmittedOnce = false) (h1 : s.isGenerating = false)
    (h2 : baseIssues d = []) (h3 : condIssues d ≠ []) :
    submitFlow s d
      = ({ s with hasSubmittedOnce := true },
        .rejectedOnFirstStrictCheck) := by
  have hv0 : validateForm false d = [] := by
    simp [validateForm, h2]
  have hv1 : validateForm true d ≠ [] := by
    simp [validateForm, h2, h3]
  simp [submitFlow, h0, h1, hv0, hv1]

/-- Witness for `first_submission_validated_strictly`: the spec's own
scenario (lectures activity with empty course, all base fields
filled). -/
theorem first_submission_validated_strictly_witness :
    baseIssues { filledData with course := some "" } = []
      ∧ condIssues { filledData with course := some "" } ≠ []
      ∧ submitFlow ⟨false, false, 0⟩ { filledData with course := some "" }
        = (⟨true, false, 0⟩, .rejectedOnFirstStrictCheck) :=
  ⟨by decide, by decide,
    first_submission_validated_strictly ⟨false, false, 0⟩ _ rfl rfl
      (by decide) (by decide)⟩

/-- C5: a single strict validation pass reports the complete error set:
every base (unconditional) issue and every conditional issue of the
record is in the returned list, and each field carries at most one
issue. -/
theorem all_violations_reported (d : FormData) :
    (∀ i, i ∈ baseIssues d → i ∈ validateForm true d)
      ∧ (∀ i, i ∈ condIssues d → i ∈ validateForm true d)
      ∧ ∀ f : FieldName,
          ((validateForm true d).filter fun i => i.path == f).length ≤ 1 := by
  refine ⟨?_, ?_, ?_⟩
  · intro i hi
    simp only [validateForm, if_true, List.mem_append]
    exact Or.inl hi
  · intro i hi
    simp only [validateForm, if_true, List.mem_append]
    exact Or.inr hi
  · intro f
    simp only [validateForm, if_true, List.filter_append, List.length_append]
    cases f
    case course =>
      rw [(filter_path_baseIssues_optional d).1]
      simpa using filter_path_condIssues_le d .course
    case professor =>
      rw [(filter_path_baseIssues_optional d).2]
      simpa using filter_path_condIssues_le d .professor
    all_goals rw [filter_path_condIssues]
    all_goals simp
    all_goals exact filter_path_baseIssues_le d _

/-- Witness for `all_violations_reported`: a record violating both an
unconditional rule (empty name) and a conditional rule (lectures with
empty course) gets both errors in one validation pass. -/
theorem all_violations_reported_witness :
    (⟨.name, .too_small, "Student name is required."⟩
        ∈ validateForm true { filledData with name := "", course := some "" })
      ∧ (⟨.course, .custom, "Course is required for lectures."⟩
        ∈ validateForm true
            { filledData with name := "", course := some "" }) :=
  ⟨(all_violations_reported _).1 _ (by decide),
    (all_violations_reported _).2.1 _ (by decide)⟩

/-- C6: for each of the four valid activity tags, the assembled
checklist marks exactly one of the four activity branches (lectures,
written-exam, oral-exam, office-hours) and renders all five labels
(including the parent exams section) regardless of the activity; the
two-item exams sub-checklist has at most one mark set. -/
theorem checklist_exactly_one_branch (a : String) (h : a ∈ activities) :
    ((branchMarks a).count true = 1)
      ∧ ((checklistItems a).map Prod.fst
          = ["lectures", "exams", "written-exam", "oral-exam",
            "office-hours"])
      ∧ ((((examsSection a).drop 1).map fun p => p.2).count true ≤ 1) := by
  simp only [activities, List.mem_cons, List.not_mem_nil, or_false] at h
  rcases h with rfl | rfl | rfl | rfl <;> decide

/-- Witness for `checklist_exactly_one_branch` at the lectures tag. -/
theorem checklist_exactly_one_branch_witness :
    ((branchMarks "lectures").count true = 1)
      ∧ ((checklistItems "lectures").map Prod.fst
          = ["lectures", "exams", "written-exam", "oral-exam",
            "office-hours"])
      ∧ ((((examsSection "lectures").drop 1).map fun p => p.2).count true
          ≤ 1) :=
  checklist_exactly_one_branch "lectures" (by decide)

/-- Template inputs matching the spec's worked scenario. -/
def goodTypInputs : TypInputs :=
  { language := "en", name := "Elena Rossi", id := "12345678",
    degree := "Computer Science", course := some "Advanced Programming",
    professor := some "", date := "2024-01-01", city := "Trento",
    image_path := "imgs/unitn.jpg", activity_type := "lectures" }

/-- An office-hours record with empty course and professor. -/
def officeHoursBlankInputs : TypInputs :=
  { goodTypInputs with
    activity_type := "office-hours", course := some "",
    professor := some "" }

/-- An office-hours record with empty course and a named professor. -/
def officeHoursCexInputs : TypInputs :=
  { goodTypInputs with
    activity_type := "office-hours", course := some "",
    professor := some "Mario Bianchi" }

/-- C7 (amended): an empty (or absent) `course` or `professor` is
replaced by the fixed 20-underscore blank line at the `value-or-blank`
occurrences (the lectures description and the office-hours description),
and that placeholder has constant length 20 and is never the empty
string; the standalone for-the-course line, however, receives the raw
`course` value. -/
theorem optional_fields_blank_substitution (i : TypInputs) :
    ((i.course.getD "").length = 0 →
        (assemble i).lectureCourseArg = blankLine)
      ∧ ((i.professor.getD "").length = 0 →
          (assemble i).officeProfessorArg = blankLine)
      ∧ (assemble i).forTheCourseArg = i.course
      ∧ blankLine.length = 20 ∧ blankLine ≠ "" := by
  refine ⟨?_, ?_, rfl, by decide, by decide⟩
  · intro h
    cases hc : i.course with
    | none => simp [assemble, valueOrBlank, hc]
    | some v =>
      rw [hc] at h
      simp only [Option.getD_some] at h
      simp [assemble, valueOrBlank, hc, h]
  · intro h
    cases hc : i.professor with
    | none => simp [assemble, valueOrBlank, hc]
    | some v =>
      rw [hc] at h
      simp only [Option.getD_some] at h
      simp [assemble, valueOrBlank, hc, h]

/-- Witness for `optional_fields_blank_substitution`: an office-hours
record with empty course and professor. -/
theorem optional_fields_blank_substitution_witness :
    (assemble officeHoursBlankInputs).lectureCourseArg = blankLine
      ∧ (assemble officeHoursBlankInputs).officeProfessorArg = blankLine :=
  ⟨(optional_fields_blank_substitution _).1 (by decide),
    (optional_fields_blank_substitution _).2.1 (by decide)⟩

/-- C7 counterexample: with an empty course, the for-the-course line of
the assembled document carries the empty string and not the blank-line
placeholder, so the substitution does not happen wherever the optional
field appears. -/
theorem for_the_course_empty_not_blank :
    (assemble officeHoursCexInputs).forTheCourseArg = some ""
      ∧ (some "" : Option String) ≠ some blankLine
      ∧ ("" : String).length = 0 := by decide

/-- C8: the header line is the city, a comma and a space, then the
parsed date displayed as zero-padded day/month/year; in particular date
`2024-01-01` yields `<city>, 01/01/2024`. -/
theorem header_city_comma_date (i : TypInputs) (dt : TomlDate) :
    ((parseTomlDate i.date = some dt →
        (assemble i).header
          = some (i.city ++ ", " ++ padNum 2 dt.day ++ "/"
            ++ padNum 2 dt.month ++ "/" ++ padNum 4 dt.year)))
      ∧ (i.date = "2024-01-01" →
        (assemble i).header = some (i.city ++ ", 01/01/2024")) := by
  constructor
  · intro h
    simp [assemble, assembleHeader, h, dateWithCity, displayDayMonthYear,
      String.append_assoc]
  · intro h
    simp only [assemble, assembleHeader, h]
    rw [show parseTomlDate "2024-01-01" = some ⟨2024, 1, 1⟩ from rfl]
    simp only [Option.map_some']
    simp only [dateWithCity]
    rw [String.append_assoc]
    rfl

/-- Witness for `header_city_comma_date` on the spec's example
record. -/
theorem header_city_comma_date_witness :
    (assemble goodTypInputs).header = some "Trento, 01/01/2024" := by
  rw [(header_city_comma_date goodTypInputs ⟨2024, 1, 1⟩).2 rfl]
  rfl

lemma submitFlow_fst_of_generating (s : Session) (d : FormData)
    (h : s.isGenerating = true) : (submitFlow s d).1 = s := by
  by_cases hv : validateForm s.hasSubmittedOnce d ≠ []
  · simp [submitFlow, hv]
  · simp [submitFlow, hv, h]

lemma goodSession_step (s : Session) (e : FormEvent) (hs : goodSession s) :
    goodSession (sessionStep s e) := by
  rw [goodSession] at hs
  rw [goodSession]
  cases e with
  | buildDone b =>
    simp only [sessionStep]
    rw [hs]
    cases s.isGenerating <;> simp
  | submitEvent d =>
    simp only [sessionStep]
    by_cases hv : validateForm s.hasSubmittedOnce d = []
    · by_cases hg : s.isGenerating = true
      · simp [submitFlow, hv, hg, hs]
      · have hg0 : s.isGenerating = false := by simpa using hg
        by_cases h1 : s.hasSubmittedOnce = true
        · have hvt : validateForm true d = [] := by rw [h1] at hv; exact hv
          rw [hg0] at hs
          simp [submitFlow, hv, hvt, hg0, h1, hs]
        · have h10 : s.hasSubmittedOnce = false := by simpa using h1
          have hvf : validateForm false d = [] := by rw [h10] at hv; exact hv
          rw [hg0] at hs
          by_cases hv1 : validateForm true d = []
          · simp [submitFlow, hvf, hg0, h10, hv1, hs]
          · simp [submitFlow, hvf, hg0, h10, hv1, hs]
    · simp [submitFlow, hv, hs]

lemma goodSession_run (evs : List FormEvent) (s : Session)
    (hs : goodSession s) : goodSession (runSession s evs) := by
  induction evs generalizing s with
  | nil => simpa [runSession] using hs
  | cons e es ih =>
    simp only [runSession]
    exact ih _ (goodSession_step s e hs)

/-- C9: a submission while a build is in flight leaves the session
unchanged (a no-op, neither queued nor run); completion of a build
clears `isGenerating` whether it succeeded or failed; and along any
event sequence from the initial session at most one build request is
outstanding. -/
theorem single_inflight_build :
    (∀ (s : Session) (d : FormData), s.isGenerating = true →
        sessionStep s (.submitEvent d) = s)
      ∧ (∀ (s : Session) (b : Bool),
          (sessionStep s (.buildDone b)).isGenerating = false)
      ∧ (∀ evs : List FormEvent,
          (runSession initSession evs).outstanding ≤ 1) := by
  refine ⟨?_, ?_, ?_⟩
  · intro s d h
    simpa [sessionStep] using submitFlow_fst_of_generating s d h
  · intro s b
    simp [sessionStep]
  · intro evs
    have hg : goodSession (runSession initSession evs) :=
      goodSession_run evs initSession (by simp [goodSession, initSession])
    rw [goodSession] at hg
    rw [hg]
    split <;> simp

/-- Witness for `single_inflight_build` at concrete states and a
one-event trace. -/
theorem single_inflight_build_witness :
    sessionStep ⟨true, true, 1⟩ (.submitEvent filledData) = ⟨true, true, 1⟩
      ∧ (sessionStep ⟨true, true, 1⟩ (.buildDone false)).isGenerating = false
      ∧ (runSession initSession [.submitEvent filledData]).outstanding ≤ 1 :=
  ⟨single_inflight_build.1 ⟨true, true, 1⟩ filledData rfl,
    single_inflight_build.2.1 ⟨true, true, 1⟩ false,
    single_inflight_build.2.2 [.submitEvent filledData]⟩

/-- C10: the standalone for-the-course line interpolates the raw
`course` value: an empty course renders as empty text there, while the
course occurrence in the lectures description goes through
`value-or-blank` and renders as the fixed placeholder. -/
theorem for_the_course_raw_interpolation (i : TypInputs)
    (h : i.course = some "") :
    (assemble i).forTheCourseArg = some ""
      ∧ (assemble i).lectureCourseArg = blankLine
      ∧ ("" : String) ≠ blankLine := by
  refine ⟨by simp [assemble, h], ?_, by decide⟩
  simp [assemble, valueOrBlank, h]

/-- Witness for `for_the_course_raw_interpolation` on a concrete
office-hours record with empty course. -/
theorem for_the_course_raw_interpolation_witness :
    (assemble officeHoursCexInputs).forTheCourseArg = some ""
      ∧ (assemble officeHoursCexInputs).lectureCourseArg = blankLine
      ∧ ("" : String) ≠ blankLine :=
  for_the_course_raw_interpolation officeHoursCexInputs rfl
